import Mathlib

/-
  Verification development for the machine provisioning tool.

  Shallow embedding of the core data model and operations:
  certificate authority subsystem (unnamed/part_001, unnamed/part_002),
  host lifecycle (host.go), the fleet/cluster driver
  (drivers/cluster/cluster.go), the driver registry and persisted host
  configuration (unnamed/part_004, host.go, drivers/cluster, drivers/rivet).

  Go file-system effects are modelled by an explicit file-system value; the
  randomized cryptographic material a call would generate is passed in as an
  explicit parameter; fallible operations return Except.
-/

namespace Machine

abbrev Err := String

/-- Machine states, from the state package (listed in spec section 3:
None, Starting, Running, Stopped, Degraded, Error). -/
inductive MState
  | none
  | starting
  | running
  | stopped
  | degraded
  | error
deriving Repr, DecidableEq

/-! ## File-system model

A file system is a list of (path, contents) pairs plus a list of existing
directories.  Writing prepends, and reads return the most recent entry, so a
write to an existing path replaces its visible contents (Go os.Create /
O_TRUNC semantics).  OS-level I/O failures (permissions, disk errors) are not
modelled. -/

def lookupFile : List (String × String) → String → Option String
  | [], _ => Option.none
  | (q, c) :: rest, p => if q = p then some c else lookupFile rest p

structure FS where
  files : List (String × String)
  dirs : List String
deriving Repr, DecidableEq

def FS.readFile (fs : FS) (p : String) : Option String :=
  lookupFile fs.files p

def FS.fileExists (fs : FS) (p : String) : Bool :=
  (fs.readFile p).isSome

def FS.dirExists (fs : FS) (p : String) : Bool :=
  fs.dirs.contains p

def FS.setFile (fs : FS) (p c : String) : FS :=
  { fs with files := (p, c) :: fs.files }

def FS.mkdirAll (fs : FS) (p : String) : FS :=
  { fs with dirs := p :: fs.dirs }

/-- Go os.RemoveAll on a directory: the directory itself, every directory
below it and every file below it disappear. -/
def FS.removeAll (fs : FS) (p : String) : FS :=
  { files := fs.files.filter fun kv => !((p ++ "/").isPrefixOf kv.1),
    dirs := fs.dirs.filter fun d => d != p && !((p ++ "/").isPrefixOf d) }

theorem FS.readFile_setFile_self (fs : FS) (p c : String) :
    (fs.setFile p c).readFile p = some c := by
  simp [FS.setFile, FS.readFile, lookupFile]

theorem FS.fileExists_setFile_self (fs : FS) (p c : String) :
    (fs.setFile p c).fileExists p = true := by
  simp [FS.fileExists, FS.readFile_setFile_self]

theorem FS.fileExists_setFile_mono (fs : FS) (p c q : String)
    (h : fs.fileExists q = true) : (fs.setFile p c).fileExists q = true := by
  simp only [FS.fileExists, FS.readFile, FS.setFile, lookupFile] at h ⊢
  split
  · simp
  · exact h

theorem FS.dirExists_setFile (fs : FS) (p c q : String) :
    (fs.setFile p c).dirExists q = fs.dirExists q := rfl

theorem FS.fileExists_mkdirAll (fs : FS) (p q : String) :
    (fs.mkdirAll p).fileExists q = fs.fileExists q := rfl

theorem FS.dirExists_mkdirAll_self (fs : FS) (p : String) :
    (fs.mkdirAll p).dirExists p = true := by
  simp [FS.dirExists, FS.mkdirAll, List.contains_cons]

theorem FS.dirExists_mkdirAll_mono (fs : FS) (p q : String)
    (h : fs.dirExists q = true) : (fs.mkdirAll p).dirExists q = true := by
  have h2 : q ∈ fs.dirs := by simpa [FS.dirExists] using h
  have h3 : q = p ∨ q ∈ fs.dirs := Or.inr h2
  simpa [FS.dirExists, FS.mkdirAll] using h3

/-! ## Certificate authority subsystem (unnamed/part_001) -/

/-- Go x509 KeyUsage bit flags used by this code base. -/
structure KeyUsage where
  digitalSignature : Bool
  keyEncipherment : Bool
  certSign : Bool
deriving Repr, DecidableEq

inductive ExtKeyUsage
  | clientAuth
  | serverAuth
deriving Repr, DecidableEq

/-- The certificate template fields this code base sets (unnamed/part_001,
newCertificate and GenerateCert).  NotBefore/NotAfter and the random serial
number are time- and randomness-dependent and are not modelled. -/
structure CertTemplate where
  org : String
  keyUsage : KeyUsage
  extKeyUsage : List ExtKeyUsage
  isCA : Bool
  ipAddresses : List String
  dnsNames : List String
deriving Repr, DecidableEq

/-- Translation of newCertificate (unnamed/part_001, lines 80 to 105):
KeyUsage = KeyEncipherment | DigitalSignature, no SANs, not a CA. -/
def newCertificate (org : String) : CertTemplate :=
  { org := org
    keyUsage := { digitalSignature := true, keyEncipherment := true, certSign := false }
    extKeyUsage := []
    isCA := false
    ipAddresses := []
    dnsNames := [] }

/-- Prepends a character to the first group of a split result. -/
def consHead (x : Char) : List (List Char) → List (List Char)
  | [] => [[x]]
  | g :: gs => (x :: g) :: gs

/-- Splitting a character list on a single-character separator (the behavior
of Go strings.Split with a one-character separator). -/
def splitOnChar (c : Char) : List Char → List (List Char)
  | [] => [[]]
  | x :: xs => if x = c then [] :: splitOnChar c xs else consHead x (splitOnChar c xs)

/-- Splitting a character list on a double colon, leftmost non-overlapping
matches first (the behavior of Go strings.Split with separator "::"). -/
def splitOnDoubleColon : List Char → List (List Char)
  | [] => [[]]
  | ':' :: ':' :: xs => [] :: splitOnDoubleColon xs
  | x :: xs => consHead x (splitOnDoubleColon xs)

/-- Decimal value of a digit list (most significant first). -/
def decValAux (acc : Nat) : List Char → Nat
  | [] => acc
  | c :: cs => decValAux (acc * 10 + (c.toNat - 48)) cs

def validV4Group (g : List Char) : Bool :=
  !g.isEmpty && g.all (·.isDigit) && decValAux 0 g ≤ 255

/-- Model of the dotted-quad IPv4 acceptance of Go net.ParseIP: four nonempty
all-digit groups, each of value at most 255 (leading zeros accepted, as in the
Go parser of this era). -/
def parseIPv4Chars (l : List Char) : Bool :=
  let parts := splitOnChar '.' l
  parts.length == 4 && parts.all validV4Group

def isHexDigitChar (c : Char) : Bool :=
  c.isDigit || (decide (c ≥ 'a') && decide (c ≤ 'f')) || (decide (c ≥ 'A') && decide (c ≤ 'F'))

def isHexGroup (g : List Char) : Bool :=
  !g.isEmpty && g.length ≤ 4 && g.all isHexDigitChar

/-- Groups of one side of an IPv6 literal (split on single colons); an empty
side contributes no groups, and no group may be empty. -/
def v6Groups (side : List Char) : Option (List (List Char)) :=
  if side.isEmpty then some []
  else
    let gs := splitOnChar ':' side
    if gs.all fun g => !g.isEmpty then some gs else Option.none

/-- Counts 16-bit units of a group list whose final group may be an embedded
dotted-quad IPv4 address (worth two units). -/
def tailUnits : List (List Char) → Option Nat
  | [] => some 0
  | [g] =>
      if isHexGroup g then some 1
      else if parseIPv4Chars g then some 2
      else Option.none
  | g :: rest =>
      if isHexGroup g then (tailUnits rest).map (· + 1) else Option.none

/-- Counts 16-bit units of a group list that must be all hex groups. -/
def hexUnits : List (List Char) → Option Nat
  | [] => some 0
  | g :: rest =>
      if isHexGroup g then (hexUnits rest).map (· + 1) else Option.none

/-- Model of Go parseIPv6 acceptance: eight units without a double colon, or
at most seven units around a single double colon; an embedded IPv4 tail is
allowed in final position. -/
def parseIPv6Chars (l : List Char) : Bool :=
  match splitOnDoubleColon l with
  | [one] => ((v6Groups one).bind tailUnits) == some 8
  | [lft, rgt] =>
      match (v6Groups lft).bind hexUnits, (v6Groups rgt).bind tailUnits with
      | some a, some b => decide (a + b ≤ 7)
      | _, _ => false
  | _ => false

/-- Model of Go net.ParseIP as a classifier: a string is an IP address when it
parses as dotted-quad IPv4 or (when it contains a colon) as IPv6. -/
def netParseIP (s : String) : Bool :=
  parseIPv4Chars s.toList || (s.toList.contains ':' && parseIPv6Chars s.toList)

/-- Translation of GenerateCACertificate (unnamed/part_001, lines 110 to 147).
The randomized material (PEM certificate and RSA key) that the call would
generate is supplied as newCert/newKey; OS and crypto failures are not
modelled.  The source performs no existence check on certFile or keyFile:
os.Create and os.OpenFile with O_TRUNC truncate any existing file, so both
paths are unconditionally overwritten. -/
def GenerateCACertificate (fs : FS) (certFile keyFile org : String) (bits : Nat)
    (newCert newKey : String) : Except Err FS :=
  let _ := org
  let _ := bits
  let fs1 := fs.setFile certFile newCert
  let fs2 := fs1.setFile keyFile newKey
  .ok fs2

/-- Translation of the template construction inside GenerateCert
(unnamed/part_001, lines 153 to 171): a single empty-string host entry selects
a client certificate (ExtKeyUsage ClientAuth+ServerAuth, KeyUsage digital
signature only); otherwise every entry is appended to IPAddresses when
net.ParseIP accepts it and to DNSNames otherwise. -/
def generateCertTemplate (hosts : List String) (org : String) : CertTemplate :=
  let t := newCertificate org
  if hosts == [""] then
    { t with
        extKeyUsage := [ExtKeyUsage.clientAuth, ExtKeyUsage.serverAuth]
        keyUsage := { digitalSignature := true, keyEncipherment := false, certSign := false } }
  else
    { t with
        ipAddresses := hosts.filter netParseIP
        dnsNames := hosts.filter fun h => !netParseIP h }

/-- Translation of the effectful part of GenerateCert (unnamed/part_001,
lines 173 to 214): tls.LoadX509KeyPair fails when either CA file is missing;
on success the certificate and key files are written (truncating). -/
def GenerateCert (fs : FS) (hosts : List String)
    (certFile keyFile caFile caKeyFile org : String) (bits : Nat)
    (newCert newKey : String) : Except Err FS :=
  let _ := generateCertTemplate hosts org
  let _ := bits
  if !(fs.fileExists caFile) || !(fs.fileExists caKeyFile) then
    .error "open ca files"
  else
    .ok ((fs.setFile certFile newCert).setFile keyFile newKey)

/-- Translation of CopyFile (unnamed/part_002, lines 57 to 75). -/
def CopyFile (fs : FS) (src dst : String) : Except Err FS :=
  match fs.readFile src with
  | Option.none => .error "open src"
  | some content => .ok (fs.setFile dst content)

/-- The CA block of SetupMachineCertificates (unnamed/part_001, lines 230 to
239): runs only when the CA cert file is absent; if the CA key file is then
present the call errors, otherwise the pair is generated.  When the CA cert
is present nothing about the CA key is checked. -/
def setupCAStep (fs1 : FS) (org caCertPath caKeyPath newCACert newCAKey : String) :
    Except Err FS :=
  if !(fs1.fileExists caCertPath) then
    if fs1.fileExists caKeyPath then
      .error "The CA key already exists.  Please remove it or specify a different key/cert."
    else
      GenerateCACertificate fs1 caCertPath caKeyPath org 2048 newCACert newCAKey
  else
    .ok fs1

/-- The client block of SetupMachineCertificates (unnamed/part_001, lines 241
to 265): runs only when the client cert file is absent; creates the client
cert directory if missing, errors if the client key file is present,
generates the client pair and copies the CA cert next to it. -/
def setupClientStep (fs2 : FS)
    (clientCertDir org caCertPath caKeyPath clientCertPath clientKeyPath : String)
    (newClientCert newClientKey : String) : Except Err FS :=
  if !(fs2.fileExists clientCertPath) then
    let fs3 := if fs2.dirExists clientCertDir then fs2 else fs2.mkdirAll clientCertDir
    if fs3.fileExists clientKeyPath then
      .error "The client key already exists.  Please remove it or specify a different key/cert."
    else
      match GenerateCert fs3 [""] clientCertPath clientKeyPath caCertPath caKeyPath org 2048
          newClientCert newClientKey with
      | .error e => .error e
      | .ok fs4 => CopyFile fs4 caCertPath (clientCertDir ++ "/ca.pem")
  else
    .ok fs2

/-- Translation of SetupMachineCertificates (unnamed/part_001, lines 216 to
268), composed from the directory step and the two blocks above.  GetUsername
and the 2048-bit size are the org parameter and the literal 2048; GetMachineDir
and GetMachineClientCertDir are the machineDir and clientCertDir parameters;
the randomized material the call would generate is supplied explicitly. -/
def SetupMachineCertificates (fs : FS)
    (machineDir clientCertDir org : String)
    (caCertPath caKeyPath clientCertPath clientKeyPath : String)
    (newCACert newCAKey newClientCert newClientKey : String) : Except Err FS :=
  match setupCAStep (if fs.dirExists machineDir then fs else fs.mkdirAll machineDir)
      org caCertPath caKeyPath newCACert newCAKey with
  | .error e => .error e
  | .ok fs2 =>
      setupClientStep fs2 clientCertDir org caCertPath caKeyPath clientCertPath clientKeyPath
        newClientCert newClientKey

/-! ## Helpers for stating results -/

def exceptOk : Except Err FS → Bool
  | .ok _ => true
  | .error _ => false

/-- Contents of a file in the file system a call returned (none on error). -/
def resultFile (r : Except Err FS) (p : String) : Option String :=
  match r with
  | .error _ => Option.none
  | .ok fs => fs.readFile p

theorem FS.readFile_setFile_ne (fs : FS) (p c q : String) (h : q ≠ p) :
    (fs.setFile p c).readFile q = fs.readFile q := by
  simp only [FS.setFile, FS.readFile, lookupFile]
  rw [if_neg fun hh => h hh.symm]

/-! ## Claim C1 -/

/-- A file system in which both the CA certificate file and the CA key file
already exist. -/
def caFS0 : FS :=
  { files := [("ca.pem", "OLDCERT"), ("ca-key.pem", "OLDKEY")], dirs := [] }

/-- C1 counterexample: both the CA certificate file and the key file already
exist, yet GenerateCACertificate succeeds and replaces the contents of both —
the call neither fails nor leaves the existing files unchanged, contradicting
the claim that it refuses to regenerate when either file exists. -/
theorem c1_counterexample :
    caFS0.fileExists "ca.pem" = true ∧
    caFS0.fileExists "ca-key.pem" = true ∧
    caFS0.readFile "ca.pem" = some "OLDCERT" ∧
    exceptOk (GenerateCACertificate caFS0 "ca.pem" "ca-key.pem" "org" 2048
      "NEWCERT" "NEWKEY") = true ∧
    resultFile (GenerateCACertificate caFS0 "ca.pem" "ca-key.pem" "org" 2048
      "NEWCERT" "NEWKEY") "ca.pem" = some "NEWCERT" ∧
    resultFile (GenerateCACertificate caFS0 "ca.pem" "ca-key.pem" "org" 2048
      "NEWCERT" "NEWKEY") "ca-key.pem" = some "NEWKEY" := by
  decide

/-- C1 (amended): GenerateCACertificate performs no existence check at all:
for every file system — including one where the certificate file or the key
file (or both) already exists — the call succeeds and overwrites both paths
with the freshly generated material.  The existence guard the claim describes
lives in the caller SetupMachineCertificates, not in GenerateCACertificate. -/
theorem c1_generateCACertificate_overwrites (fs : FS)
    (certFile keyFile org : String) (bits : Nat) (nc nk : String)
    (hne : certFile ≠ keyFile) :
    exceptOk (GenerateCACertificate fs certFile keyFile org bits nc nk) = true ∧
    resultFile (GenerateCACertificate fs certFile keyFile org bits nc nk) certFile = some nc ∧
    resultFile (GenerateCACertificate fs certFile keyFile org bits nc nk) keyFile = some nk := by
  refine ⟨rfl, ?_, ?_⟩
  · show ((fs.setFile certFile nc).setFile keyFile nk).readFile certFile = some nc
    rw [FS.readFile_setFile_ne _ _ _ _ hne, FS.readFile_setFile_self]
  · exact FS.readFile_setFile_self ..

/-- C1 witness: the amended theorem applied at a concrete input where both
files already exist. -/
theorem c1_witness :
    exceptOk (GenerateCACertificate caFS0 "ca.pem" "ca-key.pem" "org" 2048
      "NEWCERT" "NEWKEY") = true ∧
    resultFile (GenerateCACertificate caFS0 "ca.pem" "ca-key.pem" "org" 2048
      "NEWCERT" "NEWKEY") "ca.pem" = some "NEWCERT" ∧
    resultFile (GenerateCACertificate caFS0 "ca.pem" "ca-key.pem" "org" 2048
      "NEWCERT" "NEWKEY") "ca-key.pem" = some "NEWKEY" :=
  c1_generateCACertificate_overwrites caFS0 "ca.pem" "ca-key.pem" "org" 2048
    "NEWCERT" "NEWKEY" (by decide)

/-! ## Claim C8 -/

/-- C8: GenerateCert classifies every host entry as an IP address or a DNS
name and places it in the corresponding SAN field; the host list
with the single entry 10.0.0.5 yields IPAddresses = that address and no DNS
names; the list with the single entry node.example.com yields DNSNames = that
name and no IP addresses; the single empty-string entry yields a client
certificate with ExtKeyUsage ClientAuth+ServerAuth, KeyUsage digital
signature only, and no SAN entries. -/
theorem c8_generate_cert_san (org : String) :
    ((generateCertTemplate ["10.0.0.5"] org).ipAddresses = ["10.0.0.5"] ∧
     (generateCertTemplate ["10.0.0.5"] org).dnsNames = []) ∧
    ((generateCertTemplate ["node.example.com"] org).dnsNames = ["node.example.com"] ∧
     (generateCertTemplate ["node.example.com"] org).ipAddresses = []) ∧
    ((generateCertTemplate [""] org).extKeyUsage
        = [ExtKeyUsage.clientAuth, ExtKeyUsage.serverAuth] ∧
     (generateCertTemplate [""] org).keyUsage
        = { digitalSignature := true, keyEncipherment := false, certSign := false } ∧
     (generateCertTemplate [""] org).ipAddresses = [] ∧
     (generateCertTemplate [""] org).dnsNames = []) ∧
    (∀ hosts : List String, hosts ≠ [""] →
      (generateCertTemplate hosts org).ipAddresses = hosts.filter netParseIP ∧
      (generateCertTemplate hosts org).dnsNames
        = hosts.filter fun h => !netParseIP h) := by
  refine ⟨⟨?_, ?_⟩, ⟨?_, ?_⟩, ⟨rfl, rfl, rfl, rfl⟩, ?_⟩
  · simp [generateCertTemplate, newCertificate]
    decide
  · simp [generateCertTemplate, newCertificate]
    decide
  · simp [generateCertTemplate, newCertificate]
    decide
  · simp [generateCertTemplate, newCertificate]
    decide
  · intro hosts hne
    have hb : (hosts == [""]) = false := by
      cases hh : hosts == [""] with
      | true => exact absurd (by simpa using hh) hne
      | false => rfl
    constructor
    · simp [generateCertTemplate, hb]
    · simp [generateCertTemplate, hb]

/-- C8 witness: the universally quantified classification conjunct applied at
a concrete two-entry host list. -/
theorem c8_witness :
    (generateCertTemplate ["10.0.0.5", "node.example.com"] "org").ipAddresses
      = ["10.0.0.5"] ∧
    (generateCertTemplate ["10.0.0.5", "node.example.com"] "org").dnsNames
      = ["node.example.com"] := by
  have h := (c8_generate_cert_san "org").2.2.2
    ["10.0.0.5", "node.example.com"] (by decide)
  exact ⟨by rw [h.1]; decide, by rw [h.2]; decide⟩

/-! ## Claim C5 -/

theorem FS.readFile_mkdirAll (fs : FS) (p q : String) :
    (fs.mkdirAll p).readFile q = fs.readFile q := rfl

theorem setupCAStep_post (fs1 fs2 : FS) (org ca cak a b : String)
    (h : setupCAStep fs1 org ca cak a b = .ok fs2) :
    fs2.fileExists ca = true ∧
    (∀ q, fs1.fileExists q = true → fs2.fileExists q = true) ∧
    (∀ q, fs2.dirExists q = fs1.dirExists q) := by
  unfold setupCAStep at h
  cases hca : fs1.fileExists ca with
  | true =>
    simp [hca] at h
    subst h
    exact ⟨hca, fun q hq => hq, fun q => rfl⟩
  | false =>
    simp [hca, GenerateCACertificate] at h
    cases hcak : fs1.fileExists cak with
    | true => simp [hcak] at h
    | false =>
      simp [hcak] at h
      subst h
      refine ⟨?_, ?_, ?_⟩
      · exact FS.fileExists_setFile_mono _ _ _ _ (FS.fileExists_setFile_self _ _ _)
      · intro q hq
        exact FS.fileExists_setFile_mono _ _ _ _ (FS.fileExists_setFile_mono _ _ _ _ hq)
      · intro q
        rfl

theorem setupClientStep_post (fs2 g : FS) (cd org ca cak cc ck c d : String)
    (h : setupClientStep fs2 cd org ca cak cc ck c d = .ok g) :
    g.fileExists cc = true ∧
    (∀ q, fs2.fileExists q = true → g.fileExists q = true) ∧
    (∀ q, fs2.dirExists q = true → g.dirExists q = true) := by
  unfold setupClientStep at h
  cases hcc : fs2.fileExists cc with
  | true =>
    simp [hcc] at h
    subst h
    exact ⟨hcc, fun q hq => hq, fun q hq => hq⟩
  | false =>
    simp only [hcc, Bool.not_false, if_true] at h
    have hfiles3 : ∀ q, (if fs2.dirExists cd then fs2 else fs2.mkdirAll cd).fileExists q
        = fs2.fileExists q := by
      intro q
      cases hdm : fs2.dirExists cd <;> simp [hdm, FS.fileExists_mkdirAll]
    have hdirs3 : ∀ q, fs2.dirExists q = true →
        (if fs2.dirExists cd then fs2 else fs2.mkdirAll cd).dirExists q = true := by
      intro q hq
      cases hdm : fs2.dirExists cd <;> simp [hdm, FS.dirExists_mkdirAll_mono _ _ _ hq, hq]
    set fs3 := if fs2.dirExists cd then fs2 else fs2.mkdirAll cd with hfs3
    cases hck : fs3.fileExists ck with
    | true => simp [hck] at h
    | false =>
      unfold GenerateCert at h
      cases hcafs : fs3.fileExists ca with
      | false => simp [hck, hcafs] at h
      | true =>
        cases hcakfs : fs3.fileExists cak with
        | false => simp [hck, hcafs, hcakfs] at h
        | true =>
          simp only [hck, hcafs, hcakfs, Bool.not_true, Bool.or_self,
            Bool.false_eq_true, if_false] at h
          unfold CopyFile at h
          have hca5 : ((fs3.setFile cc c).setFile ck d).fileExists ca = true :=
            FS.fileExists_setFile_mono _ _ _ _ (FS.fileExists_setFile_mono _ _ _ _ hcafs)
          cases hread : ((fs3.setFile cc c).setFile ck d).readFile ca with
          | none => rw [hread] at h; exact Except.noConfusion h
          | some content =>
            rw [hread] at h
            simp only [Except.ok.injEq] at h
            subst h
            refine ⟨?_, ?_, ?_⟩
            · exact FS.fileExists_setFile_mono _ _ _ _
                (FS.fileExists_setFile_mono _ _ _ _ (FS.fileExists_setFile_self _ _ _))
            · intro q hq
              refine FS.fileExists_setFile_mono _ _ _ _
                (FS.fileExists_setFile_mono _ _ _ _ (FS.fileExists_setFile_mono _ _ _ _ ?_))
              rw [hfiles3 q]
              exact hq
            · intro q hq
              rw [FS.dirExists_setFile, FS.dirExists_setFile, FS.dirExists_setFile]
              exact hdirs3 q hq

theorem setup_post (fs g : FS) (md cd org ca cak cc ck a b c d : String)
    (h : SetupMachineCertificates fs md cd org ca cak cc ck a b c d = .ok g) :
    g.dirExists md = true ∧ g.fileExists ca = true ∧ g.fileExists cc = true := by
  unfold SetupMachineCertificates at h
  generalize hfs1 : (if fs.dirExists md then fs else fs.mkdirAll md) = fs1 at h
  have hd1 : fs1.dirExists md = true := by
    rw [← hfs1]
    cases hdm : fs.dirExists md
    · simp [hdm, FS.dirExists_mkdirAll_self]
    · simp [hdm]
  cases hca : setupCAStep fs1 org ca cak a b with
  | error e => rw [hca] at h; exact Except.noConfusion h
  | ok fs2 =>
    rw [hca] at h
    obtain ⟨h2ca, h2mono, h2dirs⟩ := setupCAStep_post _ _ _ _ _ _ _ hca
    obtain ⟨h3cc, h3mono, h3dirs⟩ := setupClientStep_post _ _ _ _ _ _ _ _ _ _ h
    refine ⟨h3dirs md ?_, h3mono ca h2ca, h3cc⟩
    rw [h2dirs md]
    exact hd1

theorem setup_fix (g : FS) (md cd org ca cak cc ck a b c d : String)
    (h1 : g.dirExists md = true) (h2 : g.fileExists ca = true)
    (h3 : g.fileExists cc = true) :
    SetupMachineCertificates g md cd org ca cak cc ck a b c d = .ok g := by
  unfold SetupMachineCertificates setupCAStep setupClientStep
  simp [h1, h2, h3]

/-- A file system in which the CA certificate file is present, the CA key
file is absent, and the client certificate is present. -/
def c5FS : FS :=
  { files := [("m/ca.pem", "CERT"), ("m/.client/cert.pem", "CLIENTCERT")],
    dirs := ["m", "m/.client"] }

/-- C5 counterexample: exactly one of the CA cert/key files is present (the
cert, without the key), yet SetupMachineCertificates succeeds and returns the
file system unchanged instead of returning an error — refuting the claim that
exactly one present file errors in either direction. -/
theorem c5_counterexample :
    c5FS.fileExists "m/ca.pem" = true ∧
    c5FS.fileExists "m/ca-key.pem" = false ∧
    SetupMachineCertificates c5FS "m" "m/.client" "org" "m/ca.pem" "m/ca-key.pem"
      "m/.client/cert.pem" "m/.client/key.pem" "A" "B" "C" "D" = .ok c5FS := by
  exact ⟨by decide, by decide, rfl⟩

/-- C5 (amended): a successful SetupMachineCertificates call is idempotent
(the second call performs no regeneration and returns its input unchanged);
the call errors when the CA cert file is absent but the CA key file is
present; in the opposite direction — CA cert present without the key — the
call does not error on the CA pair: with the client cert also present it
succeeds and leaves both CA paths exactly as they were. -/
theorem c5_setup_certificates_amended (fs g : FS)
    (md cd org ca cak cc ck a b c d : String) :
    (SetupMachineCertificates fs md cd org ca cak cc ck a b c d = .ok g →
        SetupMachineCertificates g md cd org ca cak cc ck a b c d = .ok g) ∧
    (fs.fileExists ca = false → fs.fileExists cak = true →
        SetupMachineCertificates fs md cd org ca cak cc ck a b c d
          = .error "The CA key already exists.  Please remove it or specify a different key/cert.") ∧
    (fs.fileExists ca = true → fs.fileExists cc = true →
        exceptOk (SetupMachineCertificates fs md cd org ca cak cc ck a b c d) = true ∧
        resultFile (SetupMachineCertificates fs md cd org ca cak cc ck a b c d) ca
          = fs.readFile ca ∧
        resultFile (SetupMachineCertificates fs md cd org ca cak cc ck a b c d) cak
          = fs.readFile cak) := by
  refine ⟨?_, ?_, ?_⟩
  · intro h
    obtain ⟨h1, h2, h3⟩ := setup_post _ _ _ _ _ _ _ _ _ _ _ _ _ h
    exact setup_fix _ _ _ _ _ _ _ _ _ _ _ _ h1 h2 h3
  · intro hca hcak
    unfold SetupMachineCertificates setupCAStep
    have e1 : (if fs.dirExists md then fs else fs.mkdirAll md).fileExists ca = false := by
      cases hdm : fs.dirExists md <;> simpa [hdm, FS.fileExists_mkdirAll] using hca
    have e2 : (if fs.dirExists md then fs else fs.mkdirAll md).fileExists cak = true := by
      cases hdm : fs.dirExists md <;> simpa [hdm, FS.fileExists_mkdirAll] using hcak
    simp [e1, e2]
  · intro hca hcc
    unfold SetupMachineCertificates setupCAStep setupClientStep
    have e1 : (if fs.dirExists md then fs else fs.mkdirAll md).fileExists ca = true := by
      cases hdm : fs.dirExists md <;> simpa [hdm, FS.fileExists_mkdirAll] using hca
    have e2 : (if fs.dirExists md then fs else fs.mkdirAll md).fileExists cc = true := by
      cases hdm : fs.dirExists md <;> simpa [hdm, FS.fileExists_mkdirAll] using hcc
    have e3 : (if fs.dirExists md then fs else fs.mkdirAll md).readFile ca = fs.readFile ca := by
      cases hdm : fs.dirExists md <;> simp [hdm, FS.readFile_mkdirAll]
    have e4 : (if fs.dirExists md then fs else fs.mkdirAll md).readFile cak = fs.readFile cak := by
      cases hdm : fs.dirExists md <;> simp [hdm, FS.readFile_mkdirAll]
    simp [e1, e2, exceptOk, resultFile, e3, e4]

/-- C5 witness: the amended theorem applied at the concrete file system with
the CA cert present, the CA key absent and the client cert present. -/
theorem c5_witness :
    exceptOk (SetupMachineCertificates c5FS "m" "m/.client" "org" "m/ca.pem"
      "m/ca-key.pem" "m/.client/cert.pem" "m/.client/key.pem" "A" "B" "C" "D") = true ∧
    resultFile (SetupMachineCertificates c5FS "m" "m/.client" "org" "m/ca.pem"
      "m/ca-key.pem" "m/.client/cert.pem" "m/.client/key.pem" "A" "B" "C" "D") "m/ca.pem"
      = c5FS.readFile "m/ca.pem" ∧
    resultFile (SetupMachineCertificates c5FS "m" "m/.client" "org" "m/ca.pem"
      "m/ca-key.pem" "m/.client/cert.pem" "m/.client/key.pem" "A" "B" "C" "D") "m/ca-key.pem"
      = c5FS.readFile "m/ca-key.pem" :=
  (c5_setup_certificates_amended c5FS c5FS "m" "m/.client" "org" "m/ca.pem" "m/ca-key.pem"
    "m/.client/cert.pem" "m/.client/key.pem" "A" "B" "C" "D").2.2 (by decide) (by decide)

/-! ## Host lifecycle (host.go): Start, Stop, Kill -/

/-- Observable interactions of a Host lifecycle operation with its Driver and
its configuration store. -/
inductive HostEvent
  | driverStart
  | driverStop
  | driverKill
  | saveConfig
  | getState (s : MState)
deriving Repr, DecidableEq

/-- A Host driver as the lifecycle operations observe it: results of the
side-effecting calls, and the successive answers GetState gives while the
operation polls (the finite list is the observed prefix of that answer
stream). -/
structure HostDriverModel where
  startRes : Except Err Unit
  stopRes : Except Err Unit
  killRes : Except Err Unit
  states : List MState

/-- Translation of Host.MachineInState (host.go lines 128 to 139): the poll
predicate holds exactly when the driver-reported state equals the desired
state (a GetState error is only logged; the comparison still runs). -/
def machineInState (desired s : MState) : Bool := s == desired

/-- Modelled from the spec: utils.WaitFor is code of this repository that is
not under src/ (only its callers are).  Spec section 4.2: Start/Stop/Kill
"poll GetState until the target state is observed (unbounded poll)".  The
poll consumes the observed prefix of GetState answers up to and including the
first desired state; none means the target was not observed in the prefix
(the Go loop would still be polling). -/
def waitForPoll (desired : MState) : List MState → Option (List MState)
  | [] => Option.none
  | s :: rest =>
      if machineInState desired s then some [s]
      else (waitForPoll desired rest).map (s :: ·)

inductive OpResult
  | failed (e : Err)
  | polling
  | done
deriving Repr, DecidableEq

/-- Shared shape of Host.Start/Stop/Kill (host.go lines 141 to 175): the
driver operation, then SaveConfig, then utils.WaitFor(MachineInState target);
an error from the driver operation or from the save is returned at once,
skipping the remaining steps. -/
def lifecycleOp (opRes : Except Err Unit) (opEvent : HostEvent)
    (saveRes : Except Err Unit) (desired : MState) (states : List MState) :
    List HostEvent × OpResult :=
  match opRes with
  | .error e => ([opEvent], .failed e)
  | .ok () =>
    match saveRes with
    | .error e => ([opEvent, .saveConfig], .failed e)
    | .ok () =>
      match waitForPoll desired states with
      | some consumed => (opEvent :: .saveConfig :: consumed.map .getState, .done)
      | Option.none => (opEvent :: .saveConfig :: states.map .getState, .polling)

/-- Translation of Host.Start (host.go lines 141 to 151): Driver.Start, then
SaveConfig, then wait for Running. -/
def hostStart (d : HostDriverModel) (saveRes : Except Err Unit) :
    List HostEvent × OpResult :=
  lifecycleOp d.startRes .driverStart saveRes .running d.states

/-- Translation of Host.Stop (host.go lines 153 to 163): Driver.Stop, then
SaveConfig, then wait for Stopped. -/
def hostStop (d : HostDriverModel) (saveRes : Except Err Unit) :
    List HostEvent × OpResult :=
  lifecycleOp d.stopRes .driverStop saveRes .stopped d.states

/-- Translation of Host.Kill (host.go lines 165 to 175).  The source body
calls h.Driver.Stop(), not h.Driver.Kill(), and then waits for Stopped. -/
def hostKill (d : HostDriverModel) (saveRes : Except Err Unit) :
    List HostEvent × OpResult :=
  lifecycleOp d.stopRes .driverStop saveRes .stopped d.states

theorem waitForPoll_first (desired : MState) (pre post : List MState)
    (h : desired ∉ pre) :
    waitForPoll desired (pre ++ desired :: post) = some (pre ++ [desired]) := by
  induction pre with
  | nil => simp [waitForPoll, machineInState]
  | cons x xs ih =>
    have hx : ¬machineInState desired x = true := by
      simp only [machineInState, beq_iff_eq]
      intro hh
      exact h (hh ▸ List.mem_cons_self x xs)
    have hnotin : desired ∉ xs := fun hh => h (List.mem_cons_of_mem _ hh)
    simp [waitForPoll, hx, ih hnotin]

/-- A driver whose Kill result is an error while its Stop result succeeds;
used to observe which operation Host.Kill actually invokes. -/
def killDemoDriver : HostDriverModel :=
  { startRes := .ok (), stopRes := .ok (), killRes := .error "kill failed",
    states := [MState.stopped] }

/-- C2 counterexample: on a driver whose Kill operation fails but whose Stop
operation succeeds, Host.Kill succeeds, emits a Driver.Stop call and never
invokes Driver.Kill — refuting the claim that Kill invokes Driver.Kill. -/
theorem c2_counterexample :
    killDemoDriver.killRes = Except.error "kill failed" ∧
    hostKill killDemoDriver (.ok ())
      = ([HostEvent.driverStop, HostEvent.saveConfig, HostEvent.getState MState.stopped],
         OpResult.done) ∧
    HostEvent.driverKill ∉ (hostKill killDemoDriver (.ok ())).1 := by
  refine ⟨rfl, rfl, ?_⟩
  decide

/-- C2 (amended): Start invokes Driver.Start then persists then polls
GetState until Running is observed; Stop and Kill each invoke Driver.Stop
(Kill does not invoke Driver.Kill) then persist then poll until Stopped; a
failing driver operation returns its error with no persist and no poll; Kill
and Stop have identical behavior. -/
theorem c2_lifecycle_amended (d : HostDriverModel) (saveRes : Except Err Unit)
    (pre post : List MState) :
    (∀ e, d.startRes = .error e →
        hostStart d saveRes = ([HostEvent.driverStart], .failed e)) ∧
    (∀ e, d.stopRes = .error e →
        hostStop d saveRes = ([HostEvent.driverStop], .failed e)) ∧
    (∀ e, d.stopRes = .error e →
        hostKill d saveRes = ([HostEvent.driverStop], .failed e)) ∧
    (hostKill d saveRes = hostStop d saveRes) ∧
    (d.startRes = .ok () → saveRes = .ok () →
        d.states = pre ++ MState.running :: post → MState.running ∉ pre →
        hostStart d saveRes
          = (HostEvent.driverStart :: HostEvent.saveConfig ::
              (pre ++ [MState.running]).map HostEvent.getState, .done)) ∧
    (d.stopRes = .ok () → saveRes = .ok () →
        d.states = pre ++ MState.stopped :: post → MState.stopped ∉ pre →
        hostStop d saveRes
          = (HostEvent.driverStop :: HostEvent.saveConfig ::
              (pre ++ [MState.stopped]).map HostEvent.getState, .done)) ∧
    (d.stopRes = .ok () → saveRes = .ok () →
        d.states = pre ++ MState.stopped :: post → MState.stopped ∉ pre →
        hostKill d saveRes
          = (HostEvent.driverStop :: HostEvent.saveConfig ::
              (pre ++ [MState.stopped]).map HostEvent.getState, .done)) := by
  refine ⟨?_, ?_, ?_, rfl, ?_, ?_, ?_⟩
  · intro e he; simp [hostStart, lifecycleOp, he]
  · intro e he; simp [hostStop, lifecycleOp, he]
  · intro e he; simp [hostKill, lifecycleOp, he]
  · intro h1 h2 h3 h4
    simp [hostStart, lifecycleOp, h1, h2, h3, waitForPoll_first _ _ _ h4]
  · intro h1 h2 h3 h4
    simp [hostStop, lifecycleOp, h1, h2, h3, waitForPoll_first _ _ _ h4]
  · intro h1 h2 h3 h4
    simp [hostKill, lifecycleOp, h1, h2, h3, waitForPoll_first _ _ _ h4]

/-- A driver that reports Starting once and then Running. -/
def startDemoDriver : HostDriverModel :=
  { startRes := .ok (), stopRes := .ok (), killRes := .ok (),
    states := [MState.starting, MState.running] }

/-- C2 witness: the amended theorem applied to a concrete driver whose state
reads Starting then Running. -/
theorem c2_witness :
    hostStart startDemoDriver (.ok ())
      = ([HostEvent.driverStart, HostEvent.saveConfig,
          HostEvent.getState MState.starting, HostEvent.getState MState.running],
         OpResult.done) := by
  have h := (c2_lifecycle_amended startDemoDriver (.ok ())
    [MState.starting] []).2.2.2.2.1 rfl rfl rfl (by decide)
  simpa using h

/-! ## Host.Remove (host.go) -/

/-- Translation of removeStorePath (host.go lines 220 to 229): an os.Stat
failure when the path does not exist, an error when the path is a plain file
(not a directory), os.RemoveAll otherwise. -/
def removeStorePath (fs : FS) (storePath : String) : Except Err FS :=
  if fs.fileExists storePath then .error "not a directory"
  else if fs.dirExists storePath then .ok (fs.removeAll storePath)
  else .error "stat"

/-- Translation of Host.SaveConfig (host.go lines 274 to 283) as Remove uses
it: the marshalled bytes are the configData parameter, written to config.json
under the store path; saveRes injects a possible WriteFile failure (on
failure the file system is taken unchanged). -/
def saveConfigFS (fs : FS) (storePath configData : String)
    (saveRes : Except Err Unit) : Except Err FS :=
  match saveRes with
  | .error e => .error e
  | .ok () => .ok (fs.setFile (storePath ++ "/config.json") configData)

/-- The tail of Host.Remove after the driver call (host.go lines 213 to 217):
SaveConfig then removeStorePath. -/
def hostRemoveLocal (fs : FS) (storePath configData : String)
    (saveRes : Except Err Unit) : Except Err Unit × FS :=
  match saveConfigFS fs storePath configData saveRes with
  | .error e => (.error e, fs)
  | .ok fs1 =>
      match removeStorePath fs1 storePath with
      | .error e => (.error e, fs1)
      | .ok fs2 => (.ok (), fs2)

/-- Translation of Host.Remove (host.go lines 206 to 218): a Driver.Remove
failure aborts unless force is set; with force set the failure is ignored and
the local steps run regardless. -/
def hostRemove (fs : FS) (storePath configData : String)
    (removeRes saveRes : Except Err Unit) (force : Bool) : Except Err Unit × FS :=
  match removeRes with
  | .error e =>
      if !force then (.error e, fs)
      else hostRemoveLocal fs storePath configData saveRes
  | .ok () => hostRemoveLocal fs storePath configData saveRes

theorem contains_filter_ne (l : List String) (p : String) (f : String → Bool) :
    (l.filter fun d => d != p && f d).contains p = false := by
  induction l with
  | nil => rfl
  | cons x xs ih =>
    by_cases hx : x = p
    · subst hx
      simp [List.filter_cons, ih]
    · cases hfx : (x != p && f x) with
      | false => simp [List.filter_cons, hfx, ih]
      | true =>
        simp only [List.filter_cons, hfx, if_true, List.contains_cons]
        have : (p == x) = false := by
          simp [Ne.symm hx]
        simp [this, ih]

theorem FS.dirExists_removeAll_self (fs : FS) (p : String) :
    (fs.removeAll p).dirExists p = false := by
  simp [FS.removeAll, FS.dirExists,
    contains_filter_ne fs.dirs p fun d => !((p ++ "/").isPrefixOf d)]

/-- C4: Host.Remove with force unset returns the driver error and leaves the
local store (directory and config file) untouched, so a retry is possible;
with force set the result is entirely independent of the Driver.Remove
outcome, and (when the config write succeeds and the store path is a
directory) local deletion of the store directory proceeds even though
Driver.Remove failed. -/
theorem c4_host_remove (fs : FS) (storePath configData : String)
    (saveRes : Except Err Unit) :
    (∀ e, hostRemove fs storePath configData (.error e) saveRes false
        = (.error e, fs)) ∧
    (∀ r1 r2 : Except Err Unit,
        hostRemove fs storePath configData r1 saveRes true
          = hostRemove fs storePath configData r2 saveRes true) ∧
    (saveRes = .ok () → fs.dirExists storePath = true →
     fs.fileExists storePath = false → ∀ e,
        (hostRemove fs storePath configData (.error e) saveRes true).1 = .ok () ∧
        (hostRemove fs storePath configData (.error e) saveRes true).2.dirExists storePath
          = false) := by
  have hne : storePath ++ "/config.json" ≠ storePath := by
    intro hh
    have hlen := congrArg String.length hh
    rw [String.length_append] at hlen
    have h12 : ("/config.json" : String).length = 12 := rfl
    rw [h12] at hlen
    omega
  refine ⟨fun e => rfl, ?_, ?_⟩
  · intro r1 r2
    cases r1 <;> cases r2 <;> rfl
  · intro hsave hdir hfile e
    have hstep : hostRemove fs storePath configData (.error e) saveRes true
        = hostRemoveLocal fs storePath configData saveRes := rfl
    rw [hstep]
    subst hsave
    unfold hostRemoveLocal saveConfigFS
    have hfile1 : (fs.setFile (storePath ++ "/config.json") configData).fileExists storePath
        = false := by
      unfold FS.fileExists
      rw [FS.readFile_setFile_ne _ _ _ _ (Ne.symm hne)]
      exact hfile
    have hdir1 : (fs.setFile (storePath ++ "/config.json") configData).dirExists storePath
        = true := by
      rw [FS.dirExists_setFile]
      exact hdir
    simp only [removeStorePath, hfile1, hdir1, Bool.false_eq_true, if_false, if_true]
    exact ⟨trivial, FS.dirExists_removeAll_self _ _⟩

/-- A store with one host directory holding a config file. -/
def c4FS : FS := { files := [("s/config.json", "old")], dirs := ["s"] }

/-- C4 witness: the theorem applied at a concrete store with a failing driver
removal, in both the force and the no-force case. -/
theorem c4_witness :
    hostRemove c4FS "s" "cfg" (.error "api down") (.ok ()) false
      = (.error "api down", c4FS) ∧
    (hostRemove c4FS "s" "cfg" (.error "api down") (.ok ()) true).1 = .ok () ∧
    (hostRemove c4FS "s" "cfg" (.error "api down") (.ok ()) true).2.dirExists "s"
      = false := by
  have h := c4_host_remove c4FS "s" "cfg" (.ok ())
  have h3 := h.2.2 rfl (by decide) (by decide) "api down"
  exact ⟨h.1 "api down", h3.1, h3.2⟩

/-! ## Fleet/cluster driver (drivers/cluster/cluster.go) -/

/-- A cluster member as the fleet driver observes it (a machine resolved from
the store): the result of its Driver.GetState query and the results of its
lifecycle operations. -/
structure Member where
  name : String
  stateRes : Except Err MState
  startRes : Except Err Unit
  stopRes : Except Err Unit
  upgradeRes : Except Err Unit
  removeRes : Except Err Unit

/-- Translation of Driver.getClusterNodes (cluster.go lines 54 to 67): each
configured node name is resolved through the store; the first failure aborts
with that error. -/
def getClusterNodes (store : String → Except Err Member) :
    List String → Except Err (List Member)
  | [] => .ok []
  | n :: rest =>
      match store n with
      | .error e => .error e
      | .ok m =>
          match getClusterNodes store rest with
          | .error e => .error e
          | .ok ms => .ok (m :: ms)

/-- The fleet driver configuration (cluster.go lines 19 to 28); fields other
than the configured node list do not affect the operations modelled here. -/
structure ClusterDriver where
  machineName : String
  clusterNodes : List String

/-- The loop body of Driver.GetState (cluster.go lines 111 to 120): the first
member whose state query errors, or whose state is not Running, makes the
aggregate Degraded (with a nil error); otherwise the initial Running value
survives to the end. -/
def clusterScan : List Member → MState × Option Err
  | [] => (MState.running, Option.none)
  | m :: rest =>
      match m.stateRes with
      | .error _ => (MState.degraded, Option.none)
      | .ok s =>
          if s != MState.running then (MState.degraded, Option.none)
          else clusterScan rest

/-- Translation of Driver.GetState (cluster.go lines 103 to 123): an
unresolved membership list yields the Error state carrying that error. -/
def clusterGetState (store : String → Except Err Member) (d : ClusterDriver) :
    MState × Option Err :=
  match getClusterNodes store d.clusterNodes with
  | .error e => (MState.error, some e)
  | .ok nodes => clusterScan nodes

inductive NodeOp
  | start
  | stop
  | upgrade
  | rm
deriving Repr, DecidableEq

/-- The member operation that nodeAction (cluster.go lines 125 to 137) would
invoke for each action name of its action map. -/
def memberOpRes (m : Member) : NodeOp → Except Err Unit
  | .start => m.startRes
  | .stop => m.stopRes
  | .upgrade => m.upgradeRes
  | .rm => m.removeRes

/-- One dispatched per-member task: the member name, the operation run, and
its outcome.  nodeAction logs a warning on a failing outcome and never
propagates it to the caller. -/
structure Dispatch where
  member : String
  op : NodeOp
  outcome : Except Err Unit

/-- The dispatch loop of clusterAction (cluster.go lines 147 to 169): a
member whose state query fails is skipped with a warning for every action;
start is dispatched only to members not already Running and stop only to
members not already Stopped; every other action goes to every member whose
state query succeeded.  One task per member, joined before returning. -/
def clusterActionDispatches (action : NodeOp) : List Member → List Dispatch
  | [] => []
  | m :: rest =>
      let tail := clusterActionDispatches action rest
      match m.stateRes with
      | .error _ => tail
      | .ok s =>
          match action with
          | .start =>
              if s != MState.running then ⟨m.name, .start, m.startRes⟩ :: tail else tail
          | .stop =>
              if s != MState.stopped then ⟨m.name, .stop, m.stopRes⟩ :: tail else tail
          | _ => ⟨m.name, action, memberOpRes m action⟩ :: tail

/-- Translation of Driver.clusterAction (cluster.go lines 139 to 174): an
unresolved membership list returns that error with nothing dispatched;
otherwise the per-member tasks run and the call returns nil regardless of the
individual task outcomes. -/
def clusterAction (store : String → Except Err Member) (d : ClusterDriver)
    (action : NodeOp) : Except Err Unit × List Dispatch :=
  match getClusterNodes store d.clusterNodes with
  | .error e => (.error e, [])
  | .ok nodes => (.ok (), clusterActionDispatches action nodes)

/-- Translation of Driver.Start (cluster.go lines 176 to 178). -/
def clusterStart (store : String → Except Err Member) (d : ClusterDriver) :
    Except Err Unit × List Dispatch :=
  clusterAction store d .start

/-- Translation of Driver.Stop (cluster.go lines 180 to 182). -/
def clusterStop (store : String → Except Err Member) (d : ClusterDriver) :
    Except Err Unit × List Dispatch :=
  clusterAction store d .stop

/-- Translation of Driver.Upgrade (cluster.go lines 238 to 240). -/
def clusterUpgrade (store : String → Except Err Member) (d : ClusterDriver) :
    Except Err Unit × List Dispatch :=
  clusterAction store d .upgrade

/-- Translation of Driver.Restart (cluster.go lines 189 to 199): stop, then
start, propagating either aggregate error. -/
def clusterRestart (store : String → Except Err Member) (d : ClusterDriver) :
    Except Err Unit × List Dispatch :=
  match clusterAction store d .stop with
  | (.error e, ds) => (.error e, ds)
  | (.ok (), ds1) =>
      match clusterAction store d .start with
      | (.error e, ds2) => (.error e, ds1 ++ ds2)
      | (.ok (), ds2) => (.ok (), ds1 ++ ds2)

/-- Translation of Driver.Remove (cluster.go lines 184 to 187): a TODO stub
that returns nil and dispatches nothing.  The nodeAction map knows an rm
action, but no caller ever passes it. -/
def clusterRemove (store : String → Except Err Member) (d : ClusterDriver) :
    Except Err Unit × List Dispatch :=
  let _ := store
  let _ := d
  (.ok (), [])

/-- Whether clusterAction dispatches the given action to a member. -/
def eligibleFor (action : NodeOp) (m : Member) : Bool :=
  match m.stateRes with
  | .error _ => false
  | .ok s =>
      match action with
      | .start => s != MState.running
      | .stop => s != MState.stopped
      | _ => true

theorem dispatches_eq (action : NodeOp) (nodes : List Member) :
    clusterActionDispatches action nodes
      = (nodes.filter (eligibleFor action)).map
          fun m => ⟨m.name, action, memberOpRes m action⟩ := by
  induction nodes with
  | nil => rfl
  | cons m rest ih =>
    cases hs : m.stateRes with
    | error e => simp [clusterActionDispatches, eligibleFor, List.filter_cons, hs, ih]
    | ok s =>
      cases action with
      | start =>
          cases hr : (s != MState.running) <;>
            simp [clusterActionDispatches, eligibleFor, List.filter_cons, hs, hr, ih,
              memberOpRes]
      | stop =>
          cases hr : (s != MState.stopped) <;>
            simp [clusterActionDispatches, eligibleFor, List.filter_cons, hs, hr, ih,
              memberOpRes]
      | upgrade =>
          simp [clusterActionDispatches, eligibleFor, List.filter_cons, hs, ih, memberOpRes]
      | rm =>
          simp [clusterActionDispatches, eligibleFor, List.filter_cons, hs, ih, memberOpRes]

/-- A member whose lifecycle operations all succeed and whose state query
gives the supplied answer. -/
def mkMember (nm : String) (st : Except Err MState) : Member :=
  { name := nm, stateRes := st, startRes := .ok (), stopRes := .ok (),
    upgradeRes := .ok (), removeRes := .ok () }

/-- A store resolving every name to a Running member. -/
def storeAllRunning : String → Except Err Member :=
  fun n => .ok (mkMember n (.ok MState.running))

/-- A store in which member b is Stopped and every other member Running. -/
def storeOneStopped : String → Except Err Member :=
  fun n =>
    if n = "b" then .ok (mkMember n (.ok MState.stopped))
    else .ok (mkMember n (.ok MState.running))

/-- A store in which the member named bad fails its state query and every
other member is Running. -/
def storeMixed : String → Except Err Member :=
  fun n =>
    if n = "bad" then .ok (mkMember n (.error "no state"))
    else .ok (mkMember n (.ok MState.running))

def fleetAB : ClusterDriver := { machineName := "f", clusterNodes := ["a", "b"] }

def fleetBadGood : ClusterDriver :=
  { machineName := "f2", clusterNodes := ["bad", "good"] }

/-- C3 counterexample: the fleet driver Remove is a stub: on a cluster of two
resolvable members it dispatches no per-member operation at all (empty
dispatch list) and returns success — refuting the claim that Remove
dispatches one task per member.  Additionally, Upgrade on a cluster with a
member whose state query fails dispatches only to the remaining member, so
even for the dispatching operations it is not one task per every member. -/
theorem c3_counterexample :
    clusterRemove storeAllRunning fleetAB = (.ok (), []) ∧
    fleetAB.clusterNodes.length = 2 ∧
    getClusterNodes storeAllRunning fleetAB.clusterNodes
      = .ok [mkMember "a" (.ok MState.running), mkMember "b" (.ok MState.running)] ∧
    clusterUpgrade storeMixed fleetBadGood
      = (.ok (), [⟨"good", NodeOp.upgrade, .ok ()⟩]) := by
  exact ⟨rfl, rfl, rfl, rfl⟩

/-- C3 (amended): Start, Stop, Restart and Upgrade dispatch the corresponding
per-member operation, one task per member whose state query succeeds (a
member whose state query fails is skipped with a warning), joined before
returning; failures are isolated: the aggregate returns success whenever the
membership list resolves, regardless of individual member outcomes; Start
skips members already Running and Stop skips members already Stopped; Remove,
however, is an unimplemented stub that dispatches nothing and returns
success. -/
theorem c3_cluster_fanout_amended (store : String → Except Err Member)
    (d : ClusterDriver) (nodes : List Member) :
    (∀ e, getClusterNodes store d.clusterNodes = .error e →
        clusterStart store d = (.error e, []) ∧
        clusterStop store d = (.error e, []) ∧
        clusterUpgrade store d = (.error e, [])) ∧
    (getClusterNodes store d.clusterNodes = .ok nodes →
        clusterStart store d
          = (.ok (), (nodes.filter (eligibleFor .start)).map
              fun m => ⟨m.name, NodeOp.start, memberOpRes m .start⟩) ∧
        clusterStop store d
          = (.ok (), (nodes.filter (eligibleFor .stop)).map
              fun m => ⟨m.name, NodeOp.stop, memberOpRes m .stop⟩) ∧
        clusterUpgrade store d
          = (.ok (), (nodes.filter (eligibleFor .upgrade)).map
              fun m => ⟨m.name, NodeOp.upgrade, memberOpRes m .upgrade⟩) ∧
        clusterRestart store d
          = (.ok (), (nodes.filter (eligibleFor .stop)).map
                (fun m => ⟨m.name, NodeOp.stop, memberOpRes m .stop⟩)
              ++ (nodes.filter (eligibleFor .start)).map
                fun m => ⟨m.name, NodeOp.start, memberOpRes m .start⟩)) ∧
    (clusterRemove store d = (.ok (), [])) := by
  refine ⟨?_, ?_, rfl⟩
  · intro e he
    refine ⟨?_, ?_, ?_⟩ <;> simp [clusterStart, clusterStop, clusterUpgrade, clusterAction, he]
  · intro h
    refine ⟨?_, ?_, ?_, ?_⟩
    · simp [clusterStart, clusterAction, h, dispatches_eq]
    · simp [clusterStop, clusterAction, h, dispatches_eq]
    · simp [clusterUpgrade, clusterAction, h, dispatches_eq]
    · simp [clusterRestart, clusterAction, h, dispatches_eq]

/-- C3 witness: the amended theorem applied to a concrete cluster with a
state-failing member and a healthy one. -/
theorem c3_witness :
    clusterUpgrade storeMixed fleetBadGood
      = (.ok (), [⟨"good", NodeOp.upgrade, .ok ()⟩]) ∧
    clusterRestart storeMixed fleetBadGood
      = (.ok (), [⟨"good", NodeOp.stop, .ok ()⟩]) := by
  have h := (c3_cluster_fanout_amended storeMixed fleetBadGood
    [mkMember "bad" (.error "no state"), mkMember "good" (.ok MState.running)]).2.1 rfl
  refine ⟨?_, ?_⟩
  · rw [h.2.2.1]
    rfl
  · rw [h.2.2.2]
    rfl

/-! ## Claims C7 and C10: fleet GetState aggregation -/

theorem clusterScan_cases (nodes : List Member) :
    clusterScan nodes = (MState.running, Option.none) ∨
    clusterScan nodes = (MState.degraded, Option.none) := by
  induction nodes with
  | nil => exact Or.inl rfl
  | cons m rest ih =>
    cases hs : m.stateRes with
    | error e => exact Or.inr (by simp [clusterScan, hs])
    | ok s =>
      cases hr : (s != MState.running) with
      | true => exact Or.inr (by simp [clusterScan, hs, hr])
      | false => simpa [clusterScan, hs, hr] using ih

theorem clusterScan_eq_running_iff (nodes : List Member) :
    clusterScan nodes = (MState.running, Option.none) ↔
      ∀ m ∈ nodes, m.stateRes = .ok MState.running := by
  induction nodes with
  | nil => simp [clusterScan]
  | cons m rest ih =>
    cases hs : m.stateRes with
    | error e => simp [clusterScan, hs]
    | ok s =>
      by_cases hsr : s = MState.running
      · subst hsr
        simp [clusterScan, hs, ih]
      · have hr : (s != MState.running) = true := by simp [hsr]
        simp [clusterScan, hs, hr, hsr]

/-- C7: the fleet GetState returns Running exactly when every member reports
Running; a member state-query error or a non-Running member state yields
Degraded; a membership-resolution failure yields the Error state. -/
theorem c7_cluster_getstate (store : String → Except Err Member)
    (d : ClusterDriver) (nodes : List Member) :
    (∀ e, getClusterNodes store d.clusterNodes = .error e →
        clusterGetState store d = (MState.error, some e)) ∧
    (getClusterNodes store d.clusterNodes = .ok nodes →
        (clusterGetState store d = (MState.running, Option.none) ↔
          ∀ m ∈ nodes, m.stateRes = .ok MState.running)) ∧
    (getClusterNodes store d.clusterNodes = .ok nodes →
        ¬(∀ m ∈ nodes, m.stateRes = .ok MState.running) →
        clusterGetState store d = (MState.degraded, Option.none)) := by
  refine ⟨?_, ?_, ?_⟩
  · intro e he
    simp [clusterGetState, he]
  · intro h
    simp [clusterGetState, h, clusterScan_eq_running_iff]
  · intro h hnot
    have hne : clusterScan nodes ≠ (MState.running, Option.none) := by
      intro hh
      exact hnot ((clusterScan_eq_running_iff nodes).mp hh)
    rcases clusterScan_cases nodes with hc | hc
    · exact absurd hc hne
    · simp [clusterGetState, h, hc]

def fleet3 : ClusterDriver := { machineName := "fleet", clusterNodes := ["a", "b", "c"] }

/-- C7 witness: three members all Running give the Running aggregate; the
same membership with the single member b Stopped gives Degraded. -/
theorem c7_witness :
    clusterGetState storeAllRunning fleet3 = (MState.running, Option.none) ∧
    clusterGetState storeOneStopped fleet3 = (MState.degraded, Option.none) := by
  constructor
  · refine ((c7_cluster_getstate storeAllRunning fleet3
      [mkMember "a" (.ok MState.running), mkMember "b" (.ok MState.running),
       mkMember "c" (.ok MState.running)]).2.1 rfl).mpr ?_
    intro m hm
    simp only [List.mem_cons, List.not_mem_nil, or_false] at hm
    rcases hm with rfl | rfl | rfl <;> rfl
  · refine (c7_cluster_getstate storeOneStopped fleet3
      [mkMember "a" (.ok MState.running), mkMember "b" (.ok MState.stopped),
       mkMember "c" (.ok MState.running)]).2.2 rfl ?_
    intro hall
    have hb := hall (mkMember "b" (.ok MState.stopped)) (by simp)
    simp [mkMember] at hb

/-- C10: a fleet driver whose configured node list is empty reports Running
with no error: the every-member-Running aggregate holds vacuously, making an
empty fleet indistinguishable from a fully healthy one. -/
theorem c10_empty_cluster_running (store : String → Except Err Member)
    (d : ClusterDriver) (h : d.clusterNodes = []) :
    clusterGetState store d = (MState.running, Option.none) := by
  unfold clusterGetState
  rw [h]
  rfl

def emptyFleet : ClusterDriver := { machineName := "empty", clusterNodes := [] }

/-- C10 witness: the theorem applied to a concrete empty fleet. -/
theorem c10_witness :
    clusterGetState storeAllRunning emptyFleet = (MState.running, Option.none) :=
  c10_empty_cluster_running storeAllRunning emptyFleet rfl

/-! ## Claim C9: bounded connectivity wait -/

/-- Translation of WaitForDocker (unnamed/part_002, lines 78 to 97),
specialised to a target that never becomes reachable (every net.DialTimeout
attempt fails).  Each loop iteration makes one dial attempt; on failure the
counter is incremented and compared against maxRetries; when they are equal
the call returns false, otherwise the loop sleeps one second and retries.
The loop is simulated with explicit fuel (a bound on the number of
iterations); none means the loop is still running after that many
iterations.  On termination the result carries the returned Bool, the total
number of dial attempts, and the number of one-second sleeps performed.  The
Go parameter is an int; a negative value behaves like 0 here (the equality
test never fires), so Nat is used. -/
def wfdLoop (maxRetries counter sleeps : Nat) : Nat → Option (Bool × Nat × Nat)
  | 0 => Option.none
  | fuel + 1 =>
      if counter + 1 = maxRetries then some (false, counter + 1, sleeps)
      else wfdLoop maxRetries (counter + 1) (sleeps + 1) fuel

/-- WaitForDocker on an unreachable target, started with counter 0. -/
def waitForDockerUnreachable (maxRetries : Nat) (fuel : Nat) :
    Option (Bool × Nat × Nat) :=
  wfdLoop maxRetries 0 0 fuel

theorem wfdLoop_zero_none (fuel counter sleeps : Nat) :
    wfdLoop 0 counter sleeps fuel = Option.none := by
  induction fuel generalizing counter sleeps with
  | zero => rfl
  | succ n ih => simp [wfdLoop, ih]

theorem wfdLoop_terminates (k : Nat) :
    ∀ counter sleeps : Nat,
      wfdLoop (counter + k + 1) counter sleeps (k + 1)
        = some (false, counter + k + 1, sleeps + k) := by
  induction k with
  | zero =>
      intro c s
      simp [wfdLoop]
  | succ n ih =>
      intro c s
      have hne : ¬(c + 1 = c + (n + 1) + 1) := by omega
      simp only [wfdLoop, hne, if_false]
      have h1 : c + (n + 1) + 1 = c + 1 + n + 1 := by omega
      have h2 : s + (n + 1) = s + 1 + n := by omega
      rw [h1, h2]
      exact ih (c + 1) (s + 1)

theorem waitForDocker_unreachable_exact (m : Nat) (hm : 1 ≤ m) :
    waitForDockerUnreachable m m = some (false, m, m - 1) := by
  obtain ⟨k, rfl⟩ : ∃ k, m = k + 1 := ⟨m - 1, by omega⟩
  have h := wfdLoop_terminates k 0 0
  simpa [waitForDockerUnreachable] using h

/-- Modelled from the spec: utils.WaitFor (called by WaitForSSH, host.go line
316) is code of this repository that is not under src/.  Spec sections 4.2
and 7 describe the wait as a poll with bounded retries at one-second
intervals that fails with a terminal error once the retries are exhausted:
the prober is attempted up to maxAttempts times with a one-second sleep
between consecutive attempts; the pair returned is the outcome and the
number of attempts made. -/
def specWaitForAux (probe : Nat → Bool) (attempt : Nat) :
    Nat → Except Err Unit × Nat
  | 0 => (.error "maximum number of retries exceeded", attempt)
  | n + 1 =>
      if probe attempt then (.ok (), attempt + 1)
      else specWaitForAux probe (attempt + 1) n

def specWaitFor (probe : Nat → Bool) (maxAttempts : Nat) : Except Err Unit × Nat :=
  specWaitForAux probe 0 maxAttempts

/-- Translation of WaitForSSH (host.go lines 315 to 320): wraps a failed wait
in the terminal Too many retries error. -/
def WaitForSSH (probe : Nat → Bool) (maxAttempts : Nat) : Except Err Unit × Nat :=
  match specWaitFor probe maxAttempts with
  | (.error e, n) => (.error ("Too many retries.  Last error: " ++ e), n)
  | (.ok (), n) => (.ok (), n)

theorem specWaitForAux_never (probe : Nat → Bool) (hp : ∀ n, probe n = false) :
    ∀ fuel attempt, specWaitForAux probe attempt fuel
      = (.error "maximum number of retries exceeded", attempt + fuel) := by
  intro fuel
  induction fuel with
  | zero => intro a; rfl
  | succ n ih =>
      intro a
      simp only [specWaitForAux, hp a, Bool.false_eq_true, if_false, ih (a + 1)]
      have : a + 1 + n = a + (n + 1) := by omega
      rw [this]

/-- C9 counterexample: with a configured maximum retry count of 0 and an
unreachable target, WaitForDocker never terminates — the counter is compared
with maxRetries only after being incremented, so it can never equal 0, and
even after 1000 iterations the call has not returned — refuting the claim
that the wait terminates after exactly the configured number of attempts for
every configured retry count.  (At count 3 the claimed behavior does hold:
three attempts, two sleeps.) -/
theorem c9_counterexample :
    waitForDockerUnreachable 0 1000 = Option.none ∧
    waitForDockerUnreachable 3 3 = some (false, 3, 2) := by
  exact ⟨wfdLoop_zero_none 1000 0 0, by decide⟩

/-- C9 (amended): for every positive configured maximum retry count and a
target that never becomes reachable, WaitForDocker terminates and returns the
terminal failure false after exactly maxRetries dial attempts, separated by
maxRetries minus one one-second sleeps; with retry count 0 the loop never
exits.  The spec-modelled wait-for-SSH poll returns the terminal Too many
retries error after exactly the configured number of attempts when the
prober never succeeds. -/
theorem c9_bounded_wait_amended (m : Nat) (probe : Nat → Bool) :
    (1 ≤ m → waitForDockerUnreachable m m = some (false, m, m - 1)) ∧
    (∀ fuel, waitForDockerUnreachable 0 fuel = Option.none) ∧
    ((∀ n, probe n = false) →
        WaitForSSH probe m
          = (.error "Too many retries.  Last error: maximum number of retries exceeded",
             m)) := by
  refine ⟨waitForDocker_unreachable_exact m, fun fuel => wfdLoop_zero_none fuel 0 0, ?_⟩
  intro hp
  simp [WaitForSSH, specWaitFor, specWaitForAux_never probe hp m 0]

/-- C9 witness: the amended theorem applied at retry count 3 for WaitForDocker
and retry count 4 for the SSH wait with an always-failing prober. -/
theorem c9_witness :
    waitForDockerUnreachable 3 3 = some (false, 3, 2) ∧
    WaitForSSH (fun _ => false) 4
      = (.error "Too many retries.  Last error: maximum number of retries exceeded",
         4) := by
  have h3 := c9_bounded_wait_amended 3 fun _ => false
  have h4 := c9_bounded_wait_amended 4 fun _ => false
  exact ⟨h3.1 (by decide), h4.2.2 fun n => rfl⟩

/-! ## Claim C6: driver registry and config persistence
(unnamed/part_004, host.go, drivers/cluster/cluster.go, drivers/rivet/rivet.go) -/

/-- A JSON value as this code base needs it. -/
inductive Json
  | null
  | str (s : String)
  | num (n : Int)
  | bool (b : Bool)
  | arr (elems : List Json)
  | obj (fields : List (String × Json))

def lookupJson : List (String × Json) → String → Option Json
  | [], _ => Option.none
  | (k, v) :: rest, key => if k = key then some v else lookupJson rest key

/-- Decoding a string field with encoding/json semantics: a missing key keeps
the current value, a wrong type errors. -/
def decString (fields : List (String × Json)) (key : String) (cur : String) :
    Except Err String :=
  match lookupJson fields key with
  | Option.none => .ok cur
  | some (.str s) => .ok s
  | some _ => .error "json: cannot unmarshal"

def decBool (fields : List (String × Json)) (key : String) (cur : Bool) :
    Except Err Bool :=
  match lookupJson fields key with
  | Option.none => .ok cur
  | some (.bool b) => .ok b
  | some _ => .error "json: cannot unmarshal"

def decInt (fields : List (String × Json)) (key : String) (cur : Int) :
    Except Err Int :=
  match lookupJson fields key with
  | Option.none => .ok cur
  | some (.num n) => .ok n
  | some _ => .error "json: cannot unmarshal"

def decodeStrArr : List Json → Except Err (List String)
  | [] => .ok []
  | .str s :: rest => (decodeStrArr rest).map (s :: ·)
  | _ => .error "json: cannot unmarshal"

/-- Decoding a string-slice field: a missing key or a JSON null keeps the
current value (Go leaves the slice untouched), an array of strings replaces
it. -/
def decStrList (fields : List (String × Json)) (key : String) (cur : List String) :
    Except Err (List String) :=
  match lookupJson fields key with
  | Option.none => .ok cur
  | some .null => .ok cur
  | some (.arr xs) => decodeStrArr xs
  | some _ => .error "json: cannot unmarshal"

/-- Exported configuration fields of the cluster driver (cluster.go lines 19
to 28); the unexported storePath is not serialized and lives on the host. -/
structure ClusterDriverConfig where
  machineName : String
  caCertPath : String
  privateKeyPath : String
  swarmMaster : Bool
  swarmHost : String
  swarmDiscovery : String
  clusterNodes : List String
deriving Repr, DecidableEq

/-- Exported configuration fields of the rivet driver (rivet.go lines 17 to
32); the unexported storePath is not serialized. -/
structure RivetDriverConfig where
  machineName : String
  apiEndpoint : String
  cpu : Int
  memory : Int
  storage : Int
  sshUser : String
  sshPort : Int
  caCertPath : String
  privateKeyPath : String
  driverKeyPath : String
  swarmMaster : Bool
  swarmHost : String
  swarmDiscovery : String
deriving Repr, DecidableEq

/-- The concrete driver types registered by the src/ drivers (cluster.go
lines 30 to 35, rivet.go lines 38 to 43). -/
inductive DriverConfig
  | cluster (c : ClusterDriverConfig)
  | rivet (r : RivetDriverConfig)
deriving Repr, DecidableEq

/-- DriverName of each concrete driver (cluster.go lines 73 to 75, rivet.go
lines 91 to 93), which is also its registry key. -/
def DriverConfig.registeredName : DriverConfig → String
  | .cluster _ => "cluster"
  | .rivet _ => "rivet"

def marshalCluster (c : ClusterDriverConfig) : Json :=
  .obj [("MachineName", .str c.machineName),
        ("CaCertPath", .str c.caCertPath),
        ("PrivateKeyPath", .str c.privateKeyPath),
        ("SwarmMaster", .bool c.swarmMaster),
        ("SwarmHost", .str c.swarmHost),
        ("SwarmDiscovery", .str c.swarmDiscovery),
        ("ClusterNodes", .arr (c.clusterNodes.map .str))]

def marshalRivet (r : RivetDriverConfig) : Json :=
  .obj [("MachineName", .str r.machineName),
        ("APIEndpoint", .str r.apiEndpoint),
        ("CPU", .num r.cpu),
        ("Memory", .num r.memory),
        ("Storage", .num r.storage),
        ("SSHUser", .str r.sshUser),
        ("SSHPort", .num r.sshPort),
        ("CaCertPath", .str r.caCertPath),
        ("PrivateKeyPath", .str r.privateKeyPath),
        ("DriverKeyPath", .str r.driverKeyPath),
        ("SwarmMaster", .bool r.swarmMaster),
        ("SwarmHost", .str r.swarmHost),
        ("SwarmDiscovery", .str r.swarmDiscovery)]

def marshalDriver : DriverConfig → Json
  | .cluster c => marshalCluster c
  | .rivet r => marshalRivet r

def unmarshalClusterInto (cur : ClusterDriverConfig) (j : Json) :
    Except Err ClusterDriverConfig :=
  match j with
  | .obj fields => do
      let mn ← decString fields "MachineName" cur.machineName
      let ca ← decString fields "CaCertPath" cur.caCertPath
      let pk ← decString fields "PrivateKeyPath" cur.privateKeyPath
      let sm ← decBool fields "SwarmMaster" cur.swarmMaster
      let sh ← decString fields "SwarmHost" cur.swarmHost
      let sd ← decString fields "SwarmDiscovery" cur.swarmDiscovery
      let cn ← decStrList fields "ClusterNodes" cur.clusterNodes
      pure { machineName := mn, caCertPath := ca, privateKeyPath := pk,
             swarmMaster := sm, swarmHost := sh, swarmDiscovery := sd,
             clusterNodes := cn }
  | _ => .error "json: cannot unmarshal"

def unmarshalRivetInto (cur : RivetDriverConfig) (j : Json) :
    Except Err RivetDriverConfig :=
  match j with
  | .obj fields => do
      let mn ← decString fields "MachineName" cur.machineName
      let ae ← decString fields "APIEndpoint" cur.apiEndpoint
      let cp ← decInt fields "CPU" cur.cpu
      let me ← decInt fields "Memory" cur.memory
      let st ← decInt fields "Storage" cur.storage
      let su ← decString fields "SSHUser" cur.sshUser
      let sp ← decInt fields "SSHPort" cur.sshPort
      let ca ← decString fields "CaCertPath" cur.caCertPath
      let pk ← decString fields "PrivateKeyPath" cur.privateKeyPath
      let dk ← decString fields "DriverKeyPath" cur.driverKeyPath
      let sm ← decBool fields "SwarmMaster" cur.swarmMaster
      let sh ← decString fields "SwarmHost" cur.swarmHost
      let sd ← decString fields "SwarmDiscovery" cur.swarmDiscovery
      pure { machineName := mn, apiEndpoint := ae, cpu := cp, memory := me,
             storage := st, sshUser := su, sshPort := sp, caCertPath := ca,
             privateKeyPath := pk, driverKeyPath := dk, swarmMaster := sm,
             swarmHost := sh, swarmDiscovery := sd }
  | _ => .error "json: cannot unmarshal"

/-- Translation of drivers.NewDriver (unnamed/part_004, lines 180 to 186) for
the drivers registered under src/: an unregistered name errors with the
unknown-driver message; a registered constructor returns that driver type
with the constructor-set fields (cluster.go lines 69 to 71, rivet.go lines 82
to 89) and zero values elsewhere; the storePath argument is stored in the
unexported field tracked on the host. -/
def driversNewDriver (name machineName storePath caCert privateKey : String) :
    Except Err DriverConfig :=
  let _ := storePath
  if name = "cluster" then
    .ok (.cluster { machineName := machineName, caCertPath := caCert,
                    privateKeyPath := privateKey, swarmMaster := false,
                    swarmHost := "", swarmDiscovery := "", clusterNodes := [] })
  else if name = "rivet" then
    .ok (.rivet { machineName := machineName, apiEndpoint := "", cpu := 0,
                  memory := 0, storage := 0, sshUser := "", sshPort := 0,
                  caCertPath := caCert, privateKeyPath := privateKey,
                  driverKeyPath := "", swarmMaster := false, swarmHost := "",
                  swarmDiscovery := "" })
  else
    .error ("hosts: Unknown driver " ++ name)

/-- The Host record (host.go lines 31 to 38) restricted to the fields the
persistence claim concerns: Name carries the json dash tag and is not
serialized; storePath is unexported and not serialized; AuthConfig and
SwarmConfig have types defined outside src/ and are orthogonal to the
driver round trip. -/
structure HostModel where
  name : String
  driverName : String
  driver : DriverConfig
  storePath : String
deriving Repr, DecidableEq

/-- Translation of Host.SaveConfig (host.go lines 274 to 283): the JSON
record written to config.json. -/
def hostMarshal (h : HostModel) : Json :=
  .obj [("DriverName", .str h.driverName), ("Driver", marshalDriver h.driver)]

/-- The first-pass decode of Host.LoadConfig (host.go lines 241 to 245): only
the DriverName discriminant is extracted (a missing key keeps the zero value,
a non-string errors, mirroring the one-field hostConfig struct). -/
def decodeHostConfigDriverName (j : Json) : Except Err String :=
  match j with
  | .obj fields =>
      match lookupJson fields "DriverName" with
      | Option.none => .ok ""
      | some (.str s) => .ok s
      | some _ => .error "json: cannot unmarshal"
  | _ => .error "json: cannot unmarshal"

def unmarshalDriverInto (cur : DriverConfig) (j : Json) : Except Err DriverConfig :=
  match cur with
  | .cluster c => (unmarshalClusterInto c j).map .cluster
  | .rivet r => (unmarshalRivetInto r j).map .rivet

/-- The second-pass decode of Host.LoadConfig (host.go lines 253 to 256): the
full record is unmarshalled into the host whose Driver now has the concrete
shape chosen by the first pass. -/
def unmarshalHostInto (cur : HostModel) (j : Json) : Except Err HostModel :=
  match j with
  | .obj fields => do
      let dn ←
        match lookupJson fields "DriverName" with
        | Option.none => Except.ok cur.driverName
        | some (.str s) => Except.ok s
        | some _ => Except.error "json: cannot unmarshal"
      let drv ←
        match lookupJson fields "Driver" with
        | Option.none => Except.ok cur.driver
        | some dj => unmarshalDriverInto cur.driver dj
      pure { cur with driverName := dn, driver := drv }
  | _ => .error "json: cannot unmarshal"

/-- Translation of Host.LoadConfig (host.go lines 235 to 259) on the bytes of
config.json: the first pass extracts the driver name, drivers.NewDriver
instantiates the correctly-typed driver (LoadHost passes a Host with a zero
AuthConfig, so the CA paths given to the constructor are empty), and the
second pass unmarshals the full record. -/
def hostLoadConfig (name storePath : String) (data : Json) : Except Err HostModel := do
  let driverName ← decodeHostConfigDriverName data
  let drv ← driversNewDriver driverName name storePath "" ""
  unmarshalHostInto { name := name, driverName := "", driver := drv,
                      storePath := storePath } data

theorem decodeStrArr_map_str (l : List String) :
    decodeStrArr (l.map Json.str) = .ok l := by
  induction l with
  | nil => rfl
  | cons x xs ih => simp [decodeStrArr, ih, Except.map]

theorem unmarshalCluster_marshal (cur c : ClusterDriverConfig) :
    unmarshalClusterInto cur (marshalCluster c) = .ok c := by
  obtain ⟨mn, ca, pk, sm, sh, sd, cn⟩ := c
  simp +decide [unmarshalClusterInto, marshalCluster, lookupJson, decString,
    decBool, decStrList, decodeStrArr_map_str, bind, Except.bind, pure, Except.pure]

theorem unmarshalRivet_marshal (cur r : RivetDriverConfig) :
    unmarshalRivetInto cur (marshalRivet r) = .ok r := by
  obtain ⟨mn, ae, cp, me, st, su, sp, ca, pk, dk, sm, sh, sd⟩ := r
  simp +decide [unmarshalRivetInto, marshalRivet, lookupJson, decString,
    decBool, decInt, bind, Except.bind, pure, Except.pure]

/-- C6: saving a Host with SaveConfig and reloading with LoadConfig yields a
Host whose Driver is of the same concrete type — selected by the first-pass
decode of the driver-name discriminant — with identical exported
configuration field values, for every registered driver name (cluster and
rivet, the drivers registered under src/). -/
theorem c6_config_roundtrip (h : HostModel)
    (hname : h.driverName = h.driver.registeredName) :
    hostLoadConfig h.name h.storePath (hostMarshal h) = .ok h := by
  obtain ⟨name, driverName, driver, storePath⟩ := h
  cases driver with
  | cluster c =>
      simp only [DriverConfig.registeredName] at hname
      subst hname
      simp +decide [hostLoadConfig, hostMarshal, marshalDriver,
        decodeHostConfigDriverName, lookupJson, driversNewDriver,
        unmarshalHostInto, unmarshalDriverInto, unmarshalCluster_marshal,
        Except.bind, bind, pure, Except.pure, Except.map]
  | rivet r =>
      simp only [DriverConfig.registeredName] at hname
      subst hname
      simp +decide [hostLoadConfig, hostMarshal, marshalDriver,
        decodeHostConfigDriverName, lookupJson, driversNewDriver,
        unmarshalHostInto, unmarshalDriverInto, unmarshalRivet_marshal,
        Except.bind, bind, pure, Except.pure, Except.map]

/-- A concrete cluster-driver configuration. -/
def demoClusterConfig : ClusterDriverConfig :=
  { machineName := "h1", caCertPath := "ca.pem", privateKeyPath := "key.pem",
    swarmMaster := true, swarmHost := "tcp://0.0.0.0:3376",
    swarmDiscovery := "token://abc", clusterNodes := ["a", "b"] }

/-- A concrete cluster-driver host. -/
def demoClusterHost : HostModel :=
  { name := "h1", driverName := "cluster",
    driver := .cluster demoClusterConfig, storePath := "/store/h1" }

/-- A concrete rivet-driver configuration. -/
def demoRivetConfig : RivetDriverConfig :=
  { machineName := "h2", apiEndpoint := "http://rivet:8080", cpu := 2,
    memory := 1024, storage := 10, sshUser := "root", sshPort := 22,
    caCertPath := "ca.pem", privateKeyPath := "key.pem", driverKeyPath := "",
    swarmMaster := false, swarmHost := "", swarmDiscovery := "" }

/-- A concrete rivet-driver host. -/
def demoRivetHost : HostModel :=
  { name := "h2", driverName := "rivet",
    driver := .rivet demoRivetConfig, storePath := "/store/h2" }

/-- C6 witness: the round trip applied at one concrete host per registered
driver name. -/
theorem c6_witness :
    hostLoadConfig demoClusterHost.name demoClusterHost.storePath
      (hostMarshal demoClusterHost) = .ok demoClusterHost ∧
    hostLoadConfig demoRivetHost.name demoRivetHost.storePath
      (hostMarshal demoRivetHost) = .ok demoRivetHost :=
  ⟨c6_config_roundtrip demoClusterHost rfl, c6_config_roundtrip demoRivetHost rfl⟩

end Machine
